import Mathlib

/-! MQPlayer: the FFmpeg video decoder session (`ffmpeg_video_decoder.cpp`)

A shallow embedding of the JNI decoder core.  The C++ file drives three
external collaborators that are not part of the repository:

* libavcodec / libavutil / libswscale (the "engine"),
* the Java `FrameBuffer` object handed in as output buffer, with its
  `initForYuvFrame` method and its `data` and `timeUs` fields,
* the constants of the FFmpeg headers (`AVERROR(EAGAIN)`, `AVERROR_EOF`,
  pixel-format numbers, packet flags).

All three are parameters of the embedding.  The two file-level statics
(`lastFFmpegErrorCode`, `holdFrame`) live in a `World` shared by every codec
context; a context is addressed by the number the Java side holds as
`jContext`.  Every call into a collaborator is also appended to a ghost
`trace`, so that "no call was made" and "this call had these arguments" are
statements about the embedding.
-/

namespace MQPlayer

/-! ## Result codes (`#define`s at the top of the file) -/

def UNSUPPORTED_ERROR : Int := -2
def OTHER_ERROR : Int := -1
def NO_ERROR : Int := 0
def DECODE_ERROR : Int := 1
def DECODE_AGAIN : Int := 3
def DECODE_EOF : Int := 4
def OUTPUT_BUFFER_ALLOCATE_FAILED : Int := 5

/-! ## Constants of the FFmpeg headers -/

/-- Values the C++ takes from the FFmpeg headers, which are not under the
repository's sources.  They are parameters of every definition below. -/
structure AvConsts where
  AVERROR_EAGAIN : Int
  AVERROR_EOF : Int
  AVERROR_INVALIDDATA : Int
  AV_PIX_FMT_YUV420P : Int
  AV_PIX_FMT_YUVJ420P : Int
  AV_PIX_FMT_YUV420P10LE : Int
  AV_PIX_FMT_YUV444P10LE : Int
  AV_PKT_FLAG_KEY : Nat
  AV_PKT_FLAG_DISCARD : Nat
  SWS_BICUBIC : Int
deriving DecidableEq, Repr

/-- What the headers guarantee about those values: the three error codes are
negative and pairwise different, and the four pixel formats are different
members of one enumeration. -/
def AvConsts.Valid (K : AvConsts) : Prop :=
  K.AVERROR_EAGAIN < 0 ∧ K.AVERROR_EOF < 0 ∧ K.AVERROR_INVALIDDATA < 0 ∧
  K.AVERROR_EAGAIN ≠ K.AVERROR_EOF ∧ K.AVERROR_EAGAIN ≠ K.AVERROR_INVALIDDATA ∧
  K.AVERROR_EOF ≠ K.AVERROR_INVALIDDATA ∧
  [K.AV_PIX_FMT_YUV420P, K.AV_PIX_FMT_YUVJ420P, K.AV_PIX_FMT_YUV420P10LE,
    K.AV_PIX_FMT_YUV444P10LE].Nodup

instance (K : AvConsts) : Decidable K.Valid := by
  unfold AvConsts.Valid; infer_instance

/-! ## Data the C++ passes around -/

/-- The fields of `AVPacket` that `ffmpegDecode` sets. -/
structure AVPacket where
  data : List Nat
  size : Int
  pts : Int
  dts : Int
  flags : Nat
deriving DecidableEq, Repr

/-- The fields of `AVFrame` that `putFrameToOutputBuffer` reads. -/
structure AVFrame where
  pts : Int
  format : Int
  width : Int
  height : Int
  data : List (List Nat)
  linesize : List Int
deriving DecidableEq, Repr

/-- A conversion context, identified by the arguments it was built from. -/
structure SwsContext where
  srcW : Int
  srcH : Int
  srcFormat : Int
  dstW : Int
  dstH : Int
  dstFormat : Int
  flags : Int
deriving DecidableEq, Repr

/-- The Java `FrameBuffer` object: its `data` byte buffer and `timeUs` field
(`dataField`, `timeFrameUsField`). -/
structure FrameBuffer where
  data : List Nat
  timeUs : Int
deriving DecidableEq, Repr

/-- What a call of the Java method `initForYuvFrame` leaves behind: whether an
exception is pending (`env->ExceptionCheck()`), the returned boolean, and the
buffer object after the call. -/
structure InitResult where
  exceptionPending : Bool
  ret : Bool
  buffer : FrameBuffer
deriving DecidableEq, Repr

/-- The Java side reached through JNI: the method behind the static
`initForYuvFrame` method id. Arguments: the object, width, height, the two
strides and the bit depth. -/
structure JavaRef where
  initForYuvFrame : FrameBuffer → Int → Int → Int → Int → Int → InitResult

/-- Calls that leave the C++ file, in the order they are made. -/
inductive Event where
  | send_packet (jContext : Nat) (packet : Option AVPacket) (status : Int)
  | receive_frame (jContext : Nat) (status : Int)
  | flush_buffers (jContext : Nat)
  | setTimeUs (value : Int)
  | initForYuvFrame (width height stride0 stride1 bitDepth : Int)
      (exceptionPending ret : Bool)
  | sws_getCachedContext (jContext : Nat)
      (srcW srcH srcFormat dstW dstH dstFormat flags : Int)
      (result : Option SwsContext)
  | sws_scale (jContext : Nat) (context : Option SwsContext)
      (srcSlice : List (List Nat)) (srcStride : List Int)
      (srcSliceY srcSliceH : Int) (dstCapacity : Nat)
      (dst : List Int) (dstStride : List Int)
  | av_image_copy_to_buffer (dstCapacity : Nat) (dst_size : Int)
      (src_data : List (List Nat)) (src_linesize : List Int)
      (pix_fmt width height align : Int)
deriving DecidableEq, Repr

/-- The FFmpeg libraries, over an engine state of type `σ` (the part of an
`AVCodecContext` that only libavcodec looks into).
`av_image_fill_pointers` yields the plane starts as offsets from the `ptr`
argument; the two writers yield the new contents of the destination. -/
structure Engine (σ : Type) where
  avcodec_send_packet : σ → Option AVPacket → Int × σ
  avcodec_receive_frame : σ → AVFrame → Int × σ × AVFrame
  avcodec_flush_buffers : σ → σ
  av_frame_alloc : AVFrame
  av_image_fill_linesizes : Int → Int → List Int
  av_image_get_buffer_size : Int → Int → Int → Int → Int
  av_image_fill_pointers : Int → Int → List Int → List Int
  av_image_copy_to_buffer :
    List Nat → Int → List (List Nat) → List Int → Int → Int → Int → Int → List Nat
  sws_getCachedContext :
    Int → Int → Int → Int → Int → Int → Int → Option SwsContext
  sws_scale :
    Option SwsContext → List (List Nat) → List Int → Int → Int →
      List Nat → List Int → List Int → List Nat

/-- The part of `AVCodecContext` the C++ file itself reads and writes: the
engine state and the user-data slot `context->opaque`, which holds the cached
conversion context (`none` is `NULL`). -/
structure AVCodecContext (σ : Type) where
  engine : σ
  opaqueSlot : Option SwsContext

/-- Process state: every codec context, the two statics of the file, and the
ghost trace of outgoing calls. -/
structure World (σ : Type) where
  contexts : Nat → AVCodecContext σ
  lastFFmpegErrorCode : Int
  holdFrame : Option AVFrame
  trace : List Event

variable {σ : Type}

/-! ## The functions of the file -/

/-- The function `decodePacket`: queue one packet (`none` is the `NULL` end
marker), map the raw status to a result code and cache the raw status. -/
def decodePacket (K : AvConsts) (E : Engine σ) (w : World σ) (jContext : Nat)
    (packet : Option AVPacket) : Int × World σ :=
  let context := w.contexts jContext
  let sent := E.avcodec_send_packet context.engine packet
  let ffError := sent.1
  let result :=
    if ffError = K.AVERROR_EAGAIN then DECODE_AGAIN
    else if ffError ≠ 0 ∧ ffError ≠ K.AVERROR_INVALIDDATA then DECODE_ERROR
    else NO_ERROR
  (result,
    { contexts := Function.update w.contexts jContext
        { engine := sent.2, opaqueSlot := context.opaqueSlot }
      lastFFmpegErrorCode := ffError
      holdFrame := w.holdFrame
      trace := w.trace ++ [Event.send_packet jContext packet ffError] })

/-- The packet `ffmpegDecode` builds when `len > 0`. -/
def makePacket (K : AvConsts) (packetBuffer : List Nat) (len timeUs : Int)
    (isDecodeOnly isKeyFrame : Bool) : AVPacket :=
  let flags0 : Nat := 0
  let flags1 := if isDecodeOnly then flags0 ||| K.AV_PKT_FLAG_DISCARD else flags0
  let flags2 := if isKeyFrame then flags1 ||| K.AV_PKT_FLAG_KEY else flags1
  { data := packetBuffer, size := len, pts := timeUs, dts := timeUs, flags := flags2 }

/-- The first half of `ffmpegDecode`: the data packet is submitted only when
`len > 0`; otherwise `result` keeps its initial value `NO_ERROR`. -/
def submitData (K : AvConsts) (E : Engine σ) (w : World σ) (jContext : Nat)
    (encoded : List Nat) (len timeUs : Int) (isDecodeOnly isKeyFrame : Bool) :
    Int × World σ :=
  if 0 < len then
    decodePacket K E w jContext
      (some (makePacket K encoded len timeUs isDecodeOnly isKeyFrame))
  else (NO_ERROR, w)

/-- The JNI function `ffmpegDecode`: submit the data packet when `len > 0`,
then the end marker when that gave `NO_ERROR` and `isEndOfStream` is set. -/
def ffmpegDecode (K : AvConsts) (E : Engine σ) (w : World σ) (jContext : Nat)
    (encoded : List Nat) (len timeUs : Int)
    (isDecodeOnly isEndOfStream isKeyFrame : Bool) : Int × World σ :=
  let first := submitData K E w jContext encoded len timeUs isDecodeOnly isKeyFrame
  if first.1 = NO_ERROR ∧ isEndOfStream = true then
    let second := decodePacket K E first.2 jContext none
    if second.1 = DECODE_AGAIN then (NO_ERROR, second.2) else second
  else first

/-- The JNI function `ffmpegFlushBuffers`. -/
def ffmpegFlushBuffers (E : Engine σ) (w : World σ) (jContext : Nat) : World σ :=
  let context := w.contexts jContext
  { contexts := Function.update w.contexts jContext
      { engine := E.avcodec_flush_buffers context.engine
        opaqueSlot := context.opaqueSlot }
    lastFFmpegErrorCode := w.lastFFmpegErrorCode
    holdFrame := w.holdFrame
    trace := w.trace ++ [Event.flush_buffers jContext] }

/-- The JNI function `ffmpegSecureDecode`. -/
def ffmpegSecureDecode : Int := UNSUPPORTED_ERROR

/-- The JNI function `ffmpegGetErrorCode`: it returns the static and does not
look at its `jContext` argument. -/
def ffmpegGetErrorCode (w : World σ) (_jContext : Nat) : Int :=
  w.lastFFmpegErrorCode

/-- The array `supportFormats` of `putFrameToOutputBuffer`. -/
def supportFormats (K : AvConsts) : List Int :=
  [K.AV_PIX_FMT_YUV420P, K.AV_PIX_FMT_YUVJ420P, K.AV_PIX_FMT_YUV420P10LE,
    K.AV_PIX_FMT_YUV444P10LE]

/-- The local `isFormatSupported` after the search loop. -/
def isFormatSupported (K : AvConsts) (frame : AVFrame) : Bool :=
  (supportFormats K).any (fun f => decide (f = frame.format))

/-- The local `outputFormat`. -/
def outputFormat (K : AvConsts) (frame : AVFrame) : Int :=
  if isFormatSupported K frame then frame.format else K.AV_PIX_FMT_YUV420P

/-- The local `bitDepth`. -/
def bitDepth (K : AvConsts) (frame : AVFrame) : Int :=
  if outputFormat K frame = K.AV_PIX_FMT_YUV420P10LE then 2 else 1

/-- The call of `initForYuvFrame` made by `putFrameToOutputBuffer`, on the
buffer whose `timeUs` has just been set to `frame->pts`. -/
def callInit (K : AvConsts) (E : Engine σ) (J : JavaRef) (frame : AVFrame)
    (jOutputBuffer : FrameBuffer) : InitResult :=
  let outputLineSize := E.av_image_fill_linesizes (outputFormat K frame) frame.width
  J.initForYuvFrame { data := jOutputBuffer.data, timeUs := frame.pts }
    frame.width frame.height (outputLineSize.getD 0 0) (outputLineSize.getD 1 0)
    (bitDepth K frame)

/-- The trace entry for that call. -/
def initEvent (K : AvConsts) (E : Engine σ) (J : JavaRef) (frame : AVFrame)
    (jOutputBuffer : FrameBuffer) : Event :=
  let outputLineSize := E.av_image_fill_linesizes (outputFormat K frame) frame.width
  let r := callInit K E J frame jOutputBuffer
  Event.initForYuvFrame frame.width frame.height (outputLineSize.getD 0 0)
    (outputLineSize.getD 1 0) (bitDepth K frame) r.exceptionPending r.ret

/-- The function `putFrameToOutputBuffer`: timestamp write, format choice,
`initForYuvFrame`, then conversion (fallback path) or plane copy (direct
path) into the buffer's data. -/
def putFrameToOutputBuffer (K : AvConsts) (E : Engine σ) (J : JavaRef)
    (w : World σ) (jContext : Nat) (frame : AVFrame) (jOutputBuffer : FrameBuffer) :
    Int × World σ × FrameBuffer :=
  let context := w.contexts jContext
  let outputLineSize := E.av_image_fill_linesizes (outputFormat K frame) frame.width
  let initResult := callInit K E J frame jOutputBuffer
  let trace1 := w.trace ++ [Event.setTimeUs frame.pts, initEvent K E J frame jOutputBuffer]
  if initResult.exceptionPending = true ∨ initResult.ret = false then
    (OUTPUT_BUFFER_ALLOCATE_FAILED,
      { contexts := w.contexts, lastFFmpegErrorCode := w.lastFFmpegErrorCode,
        holdFrame := w.holdFrame, trace := trace1 },
      initResult.buffer)
  else
    let data := initResult.buffer.data
    if isFormatSupported K frame = false then
      let created : Option SwsContext :=
        E.sws_getCachedContext frame.width frame.height frame.format
          frame.width frame.height (outputFormat K frame) K.SWS_BICUBIC
      let slot : Option SwsContext :=
        if context.opaqueSlot.isNone then created else context.opaqueSlot
      let trace2 :=
        if context.opaqueSlot.isNone then
          trace1 ++ [Event.sws_getCachedContext jContext frame.width frame.height
            frame.format frame.width frame.height (outputFormat K frame)
            K.SWS_BICUBIC created]
        else trace1
      let dst_data :=
        E.av_image_fill_pointers (outputFormat K frame) frame.height outputLineSize
      let written :=
        E.sws_scale slot frame.data frame.linesize 0 frame.width data dst_data
          outputLineSize
      (NO_ERROR,
        { contexts := Function.update w.contexts jContext
            { engine := context.engine, opaqueSlot := slot }
          lastFFmpegErrorCode := w.lastFFmpegErrorCode
          holdFrame := w.holdFrame
          trace := trace2 ++ [Event.sws_scale jContext slot frame.data frame.linesize
            0 frame.width data.length dst_data outputLineSize] },
        { data := written, timeUs := initResult.buffer.timeUs })
    else
      let outputSize :=
        E.av_image_get_buffer_size frame.format frame.width frame.height 1
      let written :=
        E.av_image_copy_to_buffer data outputSize frame.data frame.linesize
          frame.format frame.width frame.height 1
      (NO_ERROR,
        { contexts := w.contexts, lastFFmpegErrorCode := w.lastFFmpegErrorCode,
          holdFrame := w.holdFrame
          trace := trace1 ++ [Event.av_image_copy_to_buffer data.length outputSize
            frame.data frame.linesize frame.format frame.width frame.height 1] },
        { data := written, timeUs := initResult.buffer.timeUs })

/-- The conversion context `putFrameToOutputBuffer` works with on the fallback
path: the cached one, or a freshly requested one when the slot is empty. -/
def slotAfter (K : AvConsts) (E : Engine σ) (w : World σ) (jContext : Nat)
    (frame : AVFrame) : Option SwsContext :=
  if (w.contexts jContext).opaqueSlot.isNone then
    E.sws_getCachedContext frame.width frame.height frame.format
      frame.width frame.height (outputFormat K frame) K.SWS_BICUBIC
  else (w.contexts jContext).opaqueSlot

/-- The request for a conversion context, present only when the slot is empty. -/
def createEvents (K : AvConsts) (E : Engine σ) (w : World σ) (jContext : Nat)
    (frame : AVFrame) : List Event :=
  if (w.contexts jContext).opaqueSlot.isNone then
    [Event.sws_getCachedContext jContext frame.width frame.height frame.format
      frame.width frame.height (outputFormat K frame) K.SWS_BICUBIC
      (E.sws_getCachedContext frame.width frame.height frame.format
        frame.width frame.height (outputFormat K frame) K.SWS_BICUBIC)]
  else []

/-- The `sws_scale` call of the fallback path. -/
def scaleEvent (K : AvConsts) (E : Engine σ) (J : JavaRef) (w : World σ)
    (jContext : Nat) (frame : AVFrame) (jOutputBuffer : FrameBuffer) : Event :=
  Event.sws_scale jContext (slotAfter K E w jContext frame) frame.data frame.linesize
    0 frame.width (callInit K E J frame jOutputBuffer).buffer.data.length
    (E.av_image_fill_pointers (outputFormat K frame) frame.height
      (E.av_image_fill_linesizes (outputFormat K frame) frame.width))
    (E.av_image_fill_linesizes (outputFormat K frame) frame.width)

/-- The first half of `ffmpegGetFrame`: allocate `holdFrame` on first use
(allocation is taken to succeed) and ask the engine to fill it.  Yields the raw
status, the world after the call and the frame now held. -/
def receiveStep (E : Engine σ) (w : World σ) (jContext : Nat) :
    Int × World σ × AVFrame :=
  let context := w.contexts jContext
  let hold : AVFrame :=
    match w.holdFrame with
    | none => E.av_frame_alloc
    | some f => f
  let received := E.avcodec_receive_frame context.engine hold
  (received.1,
    { contexts := Function.update w.contexts jContext
        { engine := received.2.1, opaqueSlot := context.opaqueSlot }
      lastFFmpegErrorCode := w.lastFFmpegErrorCode
      holdFrame := some received.2.2
      trace := w.trace ++ [Event.receive_frame jContext received.1] },
    received.2.2)

/-- The JNI function `ffmpegGetFrame`. -/
def ffmpegGetFrame (K : AvConsts) (E : Engine σ) (J : JavaRef) (w : World σ)
    (jContext : Nat) (jOutputBuffer : FrameBuffer) : Int × World σ × FrameBuffer :=
  let received := receiveStep E w jContext
  let error := received.1
  let out : Int × World σ × FrameBuffer :=
    if error = 0 then
      putFrameToOutputBuffer K E J received.2.1 jContext received.2.2 jOutputBuffer
    else if error = K.AVERROR_EAGAIN then (DECODE_AGAIN, received.2.1, jOutputBuffer)
    else if error = K.AVERROR_EOF ∨ error = K.AVERROR_INVALIDDATA then
      (DECODE_EOF, received.2.1, jOutputBuffer)
    else (DECODE_ERROR, received.2.1, jOutputBuffer)
  (out.1,
    { contexts := out.2.1.contexts, lastFFmpegErrorCode := error,
      holdFrame := out.2.1.holdFrame, trace := out.2.1.trace },
    out.2.2)

/-! ## Sequences of calls -/

/-- One call from the Java side. -/
inductive Op where
  | decode (jContext : Nat) (encoded : List Nat) (len timeUs : Int)
      (isDecodeOnly isEndOfStream isKeyFrame : Bool)
  | getFrame (jContext : Nat) (jOutputBuffer : FrameBuffer)
  | flush (jContext : Nat)
deriving DecidableEq, Repr

/-- The world after one call. -/
def step (K : AvConsts) (E : Engine σ) (J : JavaRef) (w : World σ) : Op → World σ
  | Op.decode jContext encoded len timeUs isDecodeOnly isEndOfStream isKeyFrame =>
      (ffmpegDecode K E w jContext encoded len timeUs isDecodeOnly isEndOfStream
        isKeyFrame).2
  | Op.getFrame jContext jOutputBuffer =>
      (ffmpegGetFrame K E J w jContext jOutputBuffer).2.1
  | Op.flush jContext => ffmpegFlushBuffers E w jContext

/-- The world after a sequence of calls. -/
def run (K : AvConsts) (E : Engine σ) (J : JavaRef) (w : World σ) (ops : List Op) :
    World σ :=
  ops.foldl (step K E J) w

/-! ## Observations on traces -/

/-- Whether an entry is a call that writes picture bytes into the buffer. -/
def Event.isWrite : Event → Bool
  | Event.sws_scale _ _ _ _ _ _ _ _ _ => true
  | Event.av_image_copy_to_buffer _ _ _ _ _ _ _ _ => true
  | _ => false

/-- Whether an entry is a call that built a conversion context for `jContext`. -/
def Event.isCreated (jContext : Nat) : Event → Bool
  | Event.sws_getCachedContext j _ _ _ _ _ _ _ (some _) => decide (j = jContext)
  | _ => false

/-- Whether an entry is a request to build a conversion context for `jContext`. -/
def Event.isCreateCall (jContext : Nat) : Event → Bool
  | Event.sws_getCachedContext j _ _ _ _ _ _ _ _ => decide (j = jContext)
  | _ => false

/-- The raw status of the last engine call in a list of entries, or `init`
when it holds no engine call. -/
def lastStatus (init : Int) : List Event → Int
  | [] => init
  | Event.send_packet _ _ status :: rest => lastStatus status rest
  | Event.receive_frame _ status :: rest => lastStatus status rest
  | _ :: rest => lastStatus init rest

/-- One when the conversion slot is empty, zero when it holds a context. -/
def vacancy (slot : Option SwsContext) : Nat :=
  if slot.isNone then 1 else 0

/-- What a piece of code did to the conversion slot of `jContext`, going from
world `w` to world `w2` while appending `evs` to the trace: a cached context is
kept and no new one is requested; and each context built uses up the one
vacancy of the slot. -/
structure SlotEffect (jContext : Nat) (w w2 : World σ) (evs : List Event) : Prop where
  trace_eq : w2.trace = w.trace ++ evs
  kept : ∀ c, (w.contexts jContext).opaqueSlot = some c →
    (w2.contexts jContext).opaqueSlot = some c ∧
      evs.countP (Event.isCreateCall jContext) = 0
  bound : evs.countP (Event.isCreated jContext)
      + vacancy (w2.contexts jContext).opaqueSlot
    ≤ vacancy (w.contexts jContext).opaqueSlot

/-! ## A concrete environment for evaluating examples -/

/-- Header values of one build: `errno` numbering of Linux, pixel-format
numbers of the FFmpeg 4 enumeration. -/
def sampleConsts : AvConsts where
  AVERROR_EAGAIN := -11
  AVERROR_EOF := -541478725
  AVERROR_INVALIDDATA := -1094995529
  AV_PIX_FMT_YUV420P := 0
  AV_PIX_FMT_YUVJ420P := 12
  AV_PIX_FMT_YUV420P10LE := 64
  AV_PIX_FMT_YUV444P10LE := 70
  AV_PKT_FLAG_KEY := 1
  AV_PKT_FLAG_DISCARD := 4
  SWS_BICUBIC := 4

/-- A frame as `av_frame_alloc` leaves it. -/
def blankFrame : AVFrame where
  pts := 0
  format := -1
  width := 0
  height := 0
  data := []
  linesize := []

/-- An engine that answers from a script: each call of send or receive takes
the next scripted status (and frame).  Image sizes are those of 8-bit planar
4:2:0; other formats are rejected with `AVERROR(EINVAL)`. -/
def scriptedEngine : Engine (List (Int × AVFrame)) where
  avcodec_send_packet := fun s _ =>
    match s with
    | [] => (0, [])
    | r :: rest => (r.1, rest)
  avcodec_receive_frame := fun s hold =>
    match s with
    | [] => (-11, [], hold)
    | r :: rest => (r.1, rest, r.2)
  avcodec_flush_buffers := fun _ => []
  av_frame_alloc := blankFrame
  av_image_fill_linesizes := fun fmt width =>
    if fmt = 0 ∨ fmt = 12 then [width, (width + 1) / 2, (width + 1) / 2, 0]
    else [0, 0, 0, 0]
  av_image_get_buffer_size := fun fmt width height _ =>
    if fmt = 0 ∨ fmt = 12 then
      width * height + 2 * (((width + 1) / 2) * ((height + 1) / 2))
    else -22
  av_image_fill_pointers := fun _ height ls =>
    [0, ls.getD 0 0 * height,
      ls.getD 0 0 * height + ls.getD 1 0 * ((height + 1) / 2), 0]
  av_image_copy_to_buffer := fun dst size src _ _ _ _ _ =>
    src.flatten.take size.toNat ++ dst.drop size.toNat
  sws_getCachedContext := fun a b c d e f g => some ⟨a, b, c, d, e, f, g⟩
  sws_scale := fun _ _ _ _ _ dst _ _ => dst.map (fun _ => 0)

/-- A world in which every context runs the same script, as it is right after
`ffmpegInit`: empty conversion slot, no held frame, last error code 0. -/
def scriptedWorld (script : List (Int × AVFrame)) : World (List (Int × AVFrame)) where
  contexts := fun _ => { engine := script, opaqueSlot := none }
  lastFFmpegErrorCode := 0
  holdFrame := none
  trace := []

/-- A world with two sessions: the engine of context 0 answers its next call
with 0, the engine of every other context answers with `AVERROR(EAGAIN)`. -/
def twoSessionWorld : World (List (Int × AVFrame)) where
  contexts := fun j =>
    if j = 0 then { engine := [(0, blankFrame)], opaqueSlot := none }
    else { engine := [(-11, blankFrame)], opaqueSlot := none }
  lastFFmpegErrorCode := 0
  holdFrame := none
  trace := []

/-- A Java side whose `initForYuvFrame` allocates the requested layout. -/
def allocatingJava : JavaRef where
  initForYuvFrame := fun buf _ height stride0 stride1 _ =>
    { exceptionPending := false
      ret := true
      buffer :=
        { data := List.replicate
            (stride0 * height + 2 * (stride1 * ((height + 1) / 2))).toNat 0
          timeUs := buf.timeUs } }

/-- A Java side whose `initForYuvFrame` reports failure. -/
def refusingJava : JavaRef where
  initForYuvFrame := fun buf _ _ _ _ _ =>
    { exceptionPending := false, ret := false, buffer := buf }

/-- A Java side whose `initForYuvFrame` throws. -/
def throwingJava : JavaRef where
  initForYuvFrame := fun buf _ _ _ _ _ =>
    { exceptionPending := true, ret := true, buffer := buf }

/-- A Java side whose `initForYuvFrame` reports success but leaves an empty
backing store. -/
def shortJava : JavaRef where
  initForYuvFrame := fun buf _ _ _ _ _ =>
    { exceptionPending := false, ret := true
      buffer := { data := [], timeUs := buf.timeUs } }

/-- A 2x2 picture in 8-bit planar 4:2:0. -/
def yuvFrame : AVFrame where
  pts := 40000
  format := 0
  width := 2
  height := 2
  data := [[1, 2, 3, 4], [5], [6]]
  linesize := [2, 1, 1]

/-- A 4x2 picture in packed RGB24 (format 2), outside the whitelist. -/
def rgbFrame : AVFrame where
  pts := 80000
  format := 2
  width := 4
  height := 2
  data := [[1, 2, 3, 4, 5, 6, 7, 8, 9, 10, 11, 12,
    13, 14, 15, 16, 17, 18, 19, 20, 21, 22, 23, 24]]
  linesize := [12]

/-- An output buffer before its first use. -/
def emptyBuffer : FrameBuffer where
  data := []
  timeUs := 0

end MQPlayer

namespace MQPlayer

variable {σ : Type}

/-! ## Shared lemmas -/

theorem decodePacket_fst (K : AvConsts) (E : Engine σ) (w : World σ) (jContext : Nat)
    (packet : Option AVPacket) :
    (decodePacket K E w jContext packet).1 =
      if (E.avcodec_send_packet (w.contexts jContext).engine packet).1
          = K.AVERROR_EAGAIN then DECODE_AGAIN
      else if (E.avcodec_send_packet (w.contexts jContext).engine packet).1 ≠ 0 ∧
          (E.avcodec_send_packet (w.contexts jContext).engine packet).1
            ≠ K.AVERROR_INVALIDDATA then DECODE_ERROR
      else NO_ERROR := rfl

theorem decodePacket_ne_again (K : AvConsts) (E : Engine σ) (w : World σ)
    (jContext : Nat) (packet : Option AVPacket)
    (h : (E.avcodec_send_packet (w.contexts jContext).engine packet).1
      ≠ K.AVERROR_EAGAIN) :
    (decodePacket K E w jContext packet).1 ≠ DECODE_AGAIN := by
  rw [decodePacket_fst, if_neg h]
  split <;> decide

/-- Raw status to result code on the paths of `ffmpegGetFrame` that deliver
no frame. -/
theorem ffmpegGetFrame_of_ne_zero (K : AvConsts) (E : Engine σ) (J : JavaRef)
    (w : World σ) (jContext : Nat) (jOutputBuffer : FrameBuffer)
    (h : (receiveStep E w jContext).1 ≠ 0) :
    ffmpegGetFrame K E J w jContext jOutputBuffer =
      ((if (receiveStep E w jContext).1 = K.AVERROR_EAGAIN then DECODE_AGAIN
        else if (receiveStep E w jContext).1 = K.AVERROR_EOF ∨
          (receiveStep E w jContext).1 = K.AVERROR_INVALIDDATA then DECODE_EOF
        else DECODE_ERROR),
       { contexts := (receiveStep E w jContext).2.1.contexts
         lastFFmpegErrorCode := (receiveStep E w jContext).1
         holdFrame := (receiveStep E w jContext).2.1.holdFrame
         trace := (receiveStep E w jContext).2.1.trace },
       jOutputBuffer) := by
  unfold ffmpegGetFrame
  simp only [if_neg h]
  split_ifs <;> rfl

/-- The path of `ffmpegGetFrame` that delivers a frame. -/
theorem ffmpegGetFrame_of_zero (K : AvConsts) (E : Engine σ) (J : JavaRef)
    (w : World σ) (jContext : Nat) (jOutputBuffer : FrameBuffer)
    (h : (receiveStep E w jContext).1 = 0) :
    ffmpegGetFrame K E J w jContext jOutputBuffer =
      ((putFrameToOutputBuffer K E J (receiveStep E w jContext).2.1 jContext
          (receiveStep E w jContext).2.2 jOutputBuffer).1,
       { contexts := (putFrameToOutputBuffer K E J (receiveStep E w jContext).2.1
            jContext (receiveStep E w jContext).2.2 jOutputBuffer).2.1.contexts
         lastFFmpegErrorCode := (receiveStep E w jContext).1
         holdFrame := (putFrameToOutputBuffer K E J (receiveStep E w jContext).2.1
            jContext (receiveStep E w jContext).2.2 jOutputBuffer).2.1.holdFrame
         trace := (putFrameToOutputBuffer K E J (receiveStep E w jContext).2.1
            jContext (receiveStep E w jContext).2.2 jOutputBuffer).2.1.trace },
       (putFrameToOutputBuffer K E J (receiveStep E w jContext).2.1 jContext
          (receiveStep E w jContext).2.2 jOutputBuffer).2.2) := by
  unfold ffmpegGetFrame
  simp only [if_pos h]

/-- The output stage when `initForYuvFrame` threw or returned false. -/
theorem putFrameToOutputBuffer_of_failed (K : AvConsts) (E : Engine σ) (J : JavaRef)
    (w : World σ) (jContext : Nat) (frame : AVFrame) (jOutputBuffer : FrameBuffer)
    (h : (callInit K E J frame jOutputBuffer).exceptionPending = true ∨
      (callInit K E J frame jOutputBuffer).ret = false) :
    putFrameToOutputBuffer K E J w jContext frame jOutputBuffer =
      (OUTPUT_BUFFER_ALLOCATE_FAILED,
        { contexts := w.contexts, lastFFmpegErrorCode := w.lastFFmpegErrorCode,
          holdFrame := w.holdFrame,
          trace := w.trace ++
            [Event.setTimeUs frame.pts, initEvent K E J frame jOutputBuffer] },
        (callInit K E J frame jOutputBuffer).buffer) := by
  unfold putFrameToOutputBuffer
  simp only [if_pos h]

/-- The output stage on the direct path. -/
theorem putFrameToOutputBuffer_of_supported (K : AvConsts) (E : Engine σ)
    (J : JavaRef) (w : World σ) (jContext : Nat) (frame : AVFrame)
    (jOutputBuffer : FrameBuffer)
    (h : ¬ ((callInit K E J frame jOutputBuffer).exceptionPending = true ∨
      (callInit K E J frame jOutputBuffer).ret = false))
    (hs : isFormatSupported K frame = true) :
    putFrameToOutputBuffer K E J w jContext frame jOutputBuffer =
      (NO_ERROR,
        { contexts := w.contexts, lastFFmpegErrorCode := w.lastFFmpegErrorCode,
          holdFrame := w.holdFrame,
          trace := w.trace ++
            [Event.setTimeUs frame.pts, initEvent K E J frame jOutputBuffer] ++
            [Event.av_image_copy_to_buffer
              (callInit K E J frame jOutputBuffer).buffer.data.length
              (E.av_image_get_buffer_size frame.format frame.width frame.height 1)
              frame.data frame.linesize frame.format frame.width frame.height 1] },
        { data := E.av_image_copy_to_buffer
            (callInit K E J frame jOutputBuffer).buffer.data
            (E.av_image_get_buffer_size frame.format frame.width frame.height 1)
            frame.data frame.linesize frame.format frame.width frame.height 1,
          timeUs := (callInit K E J frame jOutputBuffer).buffer.timeUs }) := by
  have hs2 : ¬ (isFormatSupported K frame = false) := by simp [hs]
  unfold putFrameToOutputBuffer
  simp only [if_neg h, if_neg hs2]

/-- The output stage on the fallback path. -/
theorem putFrameToOutputBuffer_of_unsupported (K : AvConsts) (E : Engine σ)
    (J : JavaRef) (w : World σ) (jContext : Nat) (frame : AVFrame)
    (jOutputBuffer : FrameBuffer)
    (h : ¬ ((callInit K E J frame jOutputBuffer).exceptionPending = true ∨
      (callInit K E J frame jOutputBuffer).ret = false))
    (hs : isFormatSupported K frame = false) :
    putFrameToOutputBuffer K E J w jContext frame jOutputBuffer =
      (NO_ERROR,
        { contexts := Function.update w.contexts jContext
            { engine := (w.contexts jContext).engine
              opaqueSlot := slotAfter K E w jContext frame }
          lastFFmpegErrorCode := w.lastFFmpegErrorCode
          holdFrame := w.holdFrame
          trace := w.trace ++
            [Event.setTimeUs frame.pts, initEvent K E J frame jOutputBuffer] ++
            createEvents K E w jContext frame ++
            [scaleEvent K E J w jContext frame jOutputBuffer] },
        { data := E.sws_scale (slotAfter K E w jContext frame) frame.data
            frame.linesize 0 frame.width
            (callInit K E J frame jOutputBuffer).buffer.data
            (E.av_image_fill_pointers (outputFormat K frame) frame.height
              (E.av_image_fill_linesizes (outputFormat K frame) frame.width))
            (E.av_image_fill_linesizes (outputFormat K frame) frame.width),
          timeUs := (callInit K E J frame jOutputBuffer).buffer.timeUs }) := by
  unfold putFrameToOutputBuffer
  simp only [if_neg h, if_pos hs]
  unfold slotAfter createEvents scaleEvent slotAfter
  by_cases hn : (w.contexts jContext).opaqueSlot.isNone = true
  · simp only [hn, if_true, List.append_assoc]
  · simp only [hn, if_false, List.append_nil, Bool.false_eq_true]

/-- Membership in the whitelist, spelled out. -/
theorem isFormatSupported_iff (K : AvConsts) (frame : AVFrame) :
    isFormatSupported K frame = true ↔
      frame.format = K.AV_PIX_FMT_YUV420P ∨ frame.format = K.AV_PIX_FMT_YUVJ420P ∨
      frame.format = K.AV_PIX_FMT_YUV420P10LE ∨
      frame.format = K.AV_PIX_FMT_YUV444P10LE := by
  simp only [isFormatSupported, supportFormats, List.any_cons, List.any_nil,
    Bool.or_false, Bool.or_eq_true, decide_eq_true_eq]
  constructor <;> rintro (h | h | h | h) <;> simp [h]

/-! ## C1: the result of `ffmpegGetFrame` -/

/-- C1: `ffmpegGetFrame` maps the raw status `e` of the engine's receive-frame
call as follows: on `e = 0` it returns what `putFrameToOutputBuffer` returns
(result and buffer) for the frame just received; on `AVERROR(EAGAIN)` it
returns `DECODE_AGAIN` (3); on `AVERROR_EOF` or `AVERROR_INVALIDDATA` it
returns `DECODE_EOF` (4); on any other negative status it returns
`DECODE_ERROR` (1); and whenever `e` is not 0 the output buffer comes back
unchanged and the only outgoing call is the receive-frame call itself. -/
theorem ffmpegGetFrame_result (K : AvConsts) (hK : K.Valid) (E : Engine σ)
    (J : JavaRef) (w : World σ) (jContext : Nat) (jOutputBuffer : FrameBuffer) :
    let received := receiveStep E w jContext
    let e := received.1
    let got := ffmpegGetFrame K E J w jContext jOutputBuffer
    let put := putFrameToOutputBuffer K E J received.2.1 jContext received.2.2 jOutputBuffer
    (e = 0 → got.1 = put.1 ∧ got.2.2 = put.2.2) ∧
    (e = K.AVERROR_EAGAIN → got.1 = DECODE_AGAIN) ∧
    (e = K.AVERROR_EOF ∨ e = K.AVERROR_INVALIDDATA → got.1 = DECODE_EOF) ∧
    (e < 0 → e ≠ K.AVERROR_EAGAIN → e ≠ K.AVERROR_EOF → e ≠ K.AVERROR_INVALIDDATA →
      got.1 = DECODE_ERROR) ∧
    (e ≠ 0 → got.2.2 = jOutputBuffer ∧
      got.2.1.trace = w.trace ++ [Event.receive_frame jContext e]) := by
  obtain ⟨h1, h2, h3, h4, h5, -, -⟩ := hK
  intro received e got put
  refine ⟨?_, ?_, ?_, ?_, ?_⟩
  · intro h0
    have hg := ffmpegGetFrame_of_zero K E J w jContext jOutputBuffer h0
    have a1 := congrArg Prod.fst hg
    have a2 := congrArg (fun r => r.2.2) hg
    exact ⟨a1, a2⟩
  · intro ha
    have h0 : (receiveStep E w jContext).1 ≠ 0 := fun h => by
      have h6 : e = 0 := h
      omega
    have hg := ffmpegGetFrame_of_ne_zero K E J w jContext jOutputBuffer h0
    rw [if_pos ha] at hg
    have a1 := congrArg Prod.fst hg
    exact a1
  · intro hb
    have h0 : (receiveStep E w jContext).1 ≠ 0 := fun h => by
      have h6 : e = 0 := h
      omega
    have ha : ¬ (receiveStep E w jContext).1 = K.AVERROR_EAGAIN := fun h => by
      have h6 : e = K.AVERROR_EAGAIN := h
      omega
    have hg := ffmpegGetFrame_of_ne_zero K E J w jContext jOutputBuffer h0
    rw [if_neg ha, if_pos hb] at hg
    have a1 := congrArg Prod.fst hg
    exact a1
  · intro hneg ha hb hc
    have h0 : (receiveStep E w jContext).1 ≠ 0 := fun h => by
      have h6 : e = 0 := h
      omega
    have hbc : ¬ ((receiveStep E w jContext).1 = K.AVERROR_EOF ∨
        (receiveStep E w jContext).1 = K.AVERROR_INVALIDDATA) := by
      rintro (h | h)
      · exact hb h
      · exact hc h
    have hg := ffmpegGetFrame_of_ne_zero K E J w jContext jOutputBuffer h0
    rw [if_neg ha, if_neg hbc] at hg
    have a1 := congrArg Prod.fst hg
    exact a1
  · intro h0
    have hg := ffmpegGetFrame_of_ne_zero K E J w jContext jOutputBuffer h0
    have a1 := congrArg (fun r => r.2.2) hg
    have a2 := congrArg (fun r => r.2.1.trace) hg
    exact ⟨a1, a2⟩

/-- C1, at a concrete input: the sample header values are valid, and a context
whose script answers `AVERROR_INVALIDDATA` yields `DECODE_EOF` with the buffer
untouched. -/
theorem ffmpegGetFrame_result_witness :
    sampleConsts.Valid ∧
    (ffmpegGetFrame sampleConsts scriptedEngine allocatingJava
      (scriptedWorld [(-1094995529, blankFrame)]) 0 emptyBuffer).1 = DECODE_EOF ∧
    (ffmpegGetFrame sampleConsts scriptedEngine allocatingJava
      (scriptedWorld [(-1094995529, blankFrame)]) 0 emptyBuffer).2.2 = emptyBuffer :=
  ⟨by decide,
    (ffmpegGetFrame_result sampleConsts (by decide) scriptedEngine allocatingJava
      (scriptedWorld [(-1094995529, blankFrame)]) 0 emptyBuffer).2.2.1
        (Or.inr (by decide)),
    ((ffmpegGetFrame_result sampleConsts (by decide) scriptedEngine allocatingJava
      (scriptedWorld [(-1094995529, blankFrame)]) 0 emptyBuffer).2.2.2.2
        (by decide)).1⟩

/-! ## C2: the result of `decodePacket` -/

/-- C2: for every raw status `s` that the engine returns for a submitted packet
or end marker (`avcodec_send_packet` returns 0 on success and a negative
error code otherwise, so `s ≤ 0`), `decodePacket` returns `DECODE_AGAIN` (3)
when `s` is `AVERROR(EAGAIN)`, `NO_ERROR` (0) when `s` is
`AVERROR_INVALIDDATA`, `DECODE_ERROR` (1) when `s` is any other negative
status, and `NO_ERROR` (0) otherwise. -/
theorem decodePacket_result (K : AvConsts) (hK : K.Valid) (E : Engine σ)
    (w : World σ) (jContext : Nat) (packet : Option AVPacket)
    (hs : (E.avcodec_send_packet (w.contexts jContext).engine packet).1 ≤ 0) :
    let s := (E.avcodec_send_packet (w.contexts jContext).engine packet).1
    let r := (decodePacket K E w jContext packet).1
    (s = K.AVERROR_EAGAIN → r = DECODE_AGAIN) ∧
    (s = K.AVERROR_INVALIDDATA → r = NO_ERROR) ∧
    (s < 0 → s ≠ K.AVERROR_EAGAIN → s ≠ K.AVERROR_INVALIDDATA → r = DECODE_ERROR) ∧
    (¬ s < 0 → s ≠ K.AVERROR_EAGAIN → s ≠ K.AVERROR_INVALIDDATA → r = NO_ERROR) := by
  obtain ⟨h1, -, -, -, h5, -, -⟩ := hK
  intro s r
  have hs2 : s ≤ 0 := hs
  have hr : r = if s = K.AVERROR_EAGAIN then DECODE_AGAIN
      else if s ≠ 0 ∧ s ≠ K.AVERROR_INVALIDDATA then DECODE_ERROR else NO_ERROR :=
    decodePacket_fst K E w jContext packet
  refine ⟨?_, ?_, ?_, ?_⟩
  · intro h
    rw [hr, if_pos h]
  · intro h
    have ha : ¬ s = K.AVERROR_EAGAIN := fun h6 => h5 (h6.symm.trans h)
    have hb : ¬ (s ≠ 0 ∧ s ≠ K.AVERROR_INVALIDDATA) := fun h6 => h6.2 h
    rw [hr, if_neg ha, if_neg hb]
  · intro hneg ha hb
    have h0 : s ≠ 0 := ne_of_lt hneg
    rw [hr, if_neg ha, if_pos ⟨h0, hb⟩]
  · intro hnn ha _
    have h0 : s = 0 := by omega
    have hb : ¬ (s ≠ 0 ∧ s ≠ K.AVERROR_INVALIDDATA) := fun h6 => h6.1 h0
    rw [hr, if_neg ha, if_neg hb]

/-- C2, at a concrete input: with the sample header values, an end marker that
the engine answers with `AVERROR_INVALIDDATA` (a status below 0) is
tolerated. -/
theorem decodePacket_result_witness :
    sampleConsts.Valid ∧
    (scriptedEngine.avcodec_send_packet
      ((scriptedWorld [(-1094995529, blankFrame)]).contexts 0).engine none).1 ≤ 0 ∧
    (decodePacket sampleConsts scriptedEngine
      (scriptedWorld [(-1094995529, blankFrame)]) 0 none).1 = NO_ERROR :=
  ⟨by decide, by decide,
    (decodePacket_result sampleConsts (by decide) scriptedEngine
      (scriptedWorld [(-1094995529, blankFrame)]) 0 none (by decide)).2.1
        (by decide)⟩

/-! ## C3: `ffmpegDecode` at end of stream -/

/-- C3 as stated fails: with `isEndOfStream` set and one byte of data, an
engine that answers the data packet with `AVERROR(EAGAIN)` makes
`ffmpegDecode` return `DECODE_AGAIN` (3); the end marker is not submitted. -/
theorem ffmpegDecode_endOfStream_again_counterexample :
    (ffmpegDecode sampleConsts scriptedEngine (scriptedWorld [(-11, blankFrame)]) 0
      [0] 1 0 false true false).1 = DECODE_AGAIN ∧
    (ffmpegDecode sampleConsts scriptedEngine (scriptedWorld [(-11, blankFrame)]) 0
      [0] 1 0 false true false).2.trace =
      [Event.send_packet 0
        (some (makePacket sampleConsts [0] 1 0 false false)) (-11)] := by
  decide

/-- C3, amended: with `isEndOfStream` set, `ffmpegDecode` returns
`DECODE_AGAIN` (3) exactly when `len > 0` and the engine answers the data
packet with `AVERROR(EAGAIN)`, and then the data packet is the only
submission; whenever the end marker is submitted (nothing was submitted
before, or the data packet gave `NO_ERROR`) and the engine answers it with
`AVERROR(EAGAIN)`, the call returns `NO_ERROR` (0). -/
theorem ffmpegDecode_endOfStream (K : AvConsts) (E : Engine σ) (w : World σ)
    (jContext : Nat) (encoded : List Nat) (len timeUs : Int)
    (isDecodeOnly isKeyFrame : Bool) :
    let packet := makePacket K encoded len timeUs isDecodeOnly isKeyFrame
    let s := (E.avcodec_send_packet (w.contexts jContext).engine (some packet)).1
    let first := submitData K E w jContext encoded len timeUs isDecodeOnly isKeyFrame
    let r := ffmpegDecode K E w jContext encoded len timeUs isDecodeOnly true isKeyFrame
    (r.1 = DECODE_AGAIN ↔ 0 < len ∧ s = K.AVERROR_EAGAIN) ∧
    (r.1 = DECODE_AGAIN →
      r.2.trace = w.trace ++ [Event.send_packet jContext (some packet) s]) ∧
    (first.1 = NO_ERROR →
      (E.avcodec_send_packet (first.2.contexts jContext).engine none).1
        = K.AVERROR_EAGAIN →
      r.1 = NO_ERROR) := by
  intro packet s first r
  have hr : r = if first.1 = NO_ERROR ∧ true = true then
      (if (decodePacket K E first.2 jContext none).1 = DECODE_AGAIN then
        (NO_ERROR, (decodePacket K E first.2 jContext none).2)
       else decodePacket K E first.2 jContext none)
      else first := rfl
  have hfirst : first = if 0 < len then decodePacket K E w jContext (some packet)
      else (NO_ERROR, w) := rfl
  have key : r.1 = DECODE_AGAIN → 0 < len ∧ s = K.AVERROR_EAGAIN ∧
      r = decodePacket K E w jContext (some packet) := by
    intro h3
    by_cases hf : first.1 = NO_ERROR
    · exfalso
      rw [hr, if_pos ⟨hf, rfl⟩] at h3
      by_cases h2 : (decodePacket K E first.2 jContext none).1 = DECODE_AGAIN
      · rw [if_pos h2] at h3
        have h4 : NO_ERROR = DECODE_AGAIN := h3
        exact absurd h4 (by decide)
      · rw [if_neg h2] at h3
        exact h2 h3
    · have hrf : r = first := by rw [hr, if_neg (fun h => hf h.1)]
      by_cases hl : 0 < len
      · rw [hfirst, if_pos hl] at hrf
        refine ⟨hl, ?_, hrf⟩
        by_contra hs
        exact decodePacket_ne_again K E w jContext (some packet) hs (hrf ▸ h3)
      · rw [hfirst, if_neg hl] at hf
        exact absurd rfl hf
  refine ⟨⟨fun h => ⟨(key h).1, (key h).2.1⟩, ?_⟩, ?_, ?_⟩
  · rintro ⟨hl, hs⟩
    have hf1 : first = decodePacket K E w jContext (some packet) := by
      rw [hfirst, if_pos hl]
    have hf : first.1 = DECODE_AGAIN := by
      rw [hf1, decodePacket_fst, if_pos hs]
    have hne : ¬ (first.1 = NO_ERROR ∧ true = true) := by
      rw [hf]; exact fun h => absurd h.1 (by decide)
    rw [hr, if_neg hne]
    exact hf
  · intro h3
    rw [(key h3).2.2]
    rfl
  · intro hf hm
    have h2 : (decodePacket K E first.2 jContext none).1 = DECODE_AGAIN := by
      rw [decodePacket_fst, if_pos hm]
    rw [hr, if_pos ⟨hf, rfl⟩, if_pos h2]

/-! ## C4: `ffmpegDecode` on an empty unit without end of stream -/

/-- C4: `ffmpegDecode` with `len = 0` and `isEndOfStream = false` returns
`NO_ERROR` (0) and the world comes back as it was: no context changed, the
cached last error code is the same, and no call was appended to the trace. -/
theorem ffmpegDecode_empty (K : AvConsts) (E : Engine σ) (w : World σ)
    (jContext : Nat) (encoded : List Nat) (timeUs : Int)
    (isDecodeOnly isKeyFrame : Bool) :
    ffmpegDecode K E w jContext encoded 0 timeUs isDecodeOnly false isKeyFrame
      = (NO_ERROR, w) := by
  simp [ffmpegDecode, submitData]

/-! ## C5: delivery format and bit depth -/

/-- The local `outputFormat` in terms of the native format. -/
theorem outputFormat_eq (K : AvConsts) (frame : AVFrame) :
    outputFormat K frame =
      if frame.format = K.AV_PIX_FMT_YUV420P ∨ frame.format = K.AV_PIX_FMT_YUVJ420P ∨
        frame.format = K.AV_PIX_FMT_YUV420P10LE ∨
        frame.format = K.AV_PIX_FMT_YUV444P10LE
      then frame.format else K.AV_PIX_FMT_YUV420P := by
  unfold outputFormat
  by_cases h : isFormatSupported K frame = true
  · rw [if_pos h, if_pos ((isFormatSupported_iff K frame).1 h)]
  · rw [if_neg h, if_neg (fun h2 => h ((isFormatSupported_iff K frame).2 h2))]

/-- The local `bitDepth` in terms of the native format. -/
theorem bitDepth_eq (K : AvConsts) (hK : K.Valid) (frame : AVFrame) :
    bitDepth K frame = if frame.format = K.AV_PIX_FMT_YUV420P10LE then 2 else 1 := by
  have hne : K.AV_PIX_FMT_YUV420P ≠ K.AV_PIX_FMT_YUV420P10LE := by
    have hnd := hK.2.2.2.2.2.2
    simp only [List.nodup_cons, List.mem_cons, List.mem_singleton, not_or] at hnd
    exact hnd.1.2.1
  unfold bitDepth
  rw [outputFormat_eq]
  by_cases h10 : frame.format = K.AV_PIX_FMT_YUV420P10LE
  · rw [if_pos (Or.inr (Or.inr (Or.inl h10)))]
  · rw [if_neg h10]
    by_cases h1 : frame.format = K.AV_PIX_FMT_YUV420P ∨
        frame.format = K.AV_PIX_FMT_YUVJ420P ∨
        frame.format = K.AV_PIX_FMT_YUV420P10LE ∨
        frame.format = K.AV_PIX_FMT_YUV444P10LE
    · rw [if_pos h1, if_neg h10]
    · rw [if_neg h1, if_neg hne]

/-- The trace of `putFrameToOutputBuffer` starts with the timestamp write and
the `initForYuvFrame` call. -/
theorem putFrameToOutputBuffer_trace_head (K : AvConsts) (E : Engine σ)
    (J : JavaRef) (w : World σ) (jContext : Nat) (frame : AVFrame)
    (jOutputBuffer : FrameBuffer) :
    ∃ rest, (putFrameToOutputBuffer K E J w jContext frame jOutputBuffer).2.1.trace =
      w.trace ++ Event.setTimeUs frame.pts ::
        initEvent K E J frame jOutputBuffer :: rest := by
  by_cases h : (callInit K E J frame jOutputBuffer).exceptionPending = true ∨
      (callInit K E J frame jOutputBuffer).ret = false
  · exact ⟨[], by rw [putFrameToOutputBuffer_of_failed K E J w jContext frame _ h]⟩
  · by_cases hs : isFormatSupported K frame = true
    · refine ⟨[Event.av_image_copy_to_buffer
        (callInit K E J frame jOutputBuffer).buffer.data.length
        (E.av_image_get_buffer_size frame.format frame.width frame.height 1)
        frame.data frame.linesize frame.format frame.width frame.height 1], ?_⟩
      rw [putFrameToOutputBuffer_of_supported K E J w jContext frame _ h hs]
      simp
    · have hs2 : isFormatSupported K frame = false := by simpa using hs
      refine ⟨createEvents K E w jContext frame ++
        [scaleEvent K E J w jContext frame jOutputBuffer], ?_⟩
      rw [putFrameToOutputBuffer_of_unsupported K E J w jContext frame _ h hs2]
      simp

/-- C5: in `putFrameToOutputBuffer` the delivery format (`outputFormat`) is
the native format when that is one of YUV420P, YUVJ420P, YUV420P10LE,
YUV444P10LE and YUV420P otherwise; the bit depth is 2 exactly when the native
format is YUV420P10LE and 1 otherwise; and the `initForYuvFrame` call, made
right after the timestamp write, carries that bit depth and the first two line
sizes of that delivery format at the picture's width. -/
theorem putFrameToOutputBuffer_delivery (K : AvConsts) (hK : K.Valid)
    (E : Engine σ) (J : JavaRef) (w : World σ) (jContext : Nat) (frame : AVFrame)
    (jOutputBuffer : FrameBuffer) :
    let delivery : Int :=
      if frame.format = K.AV_PIX_FMT_YUV420P ∨ frame.format = K.AV_PIX_FMT_YUVJ420P ∨
        frame.format = K.AV_PIX_FMT_YUV420P10LE ∨
        frame.format = K.AV_PIX_FMT_YUV444P10LE
      then frame.format else K.AV_PIX_FMT_YUV420P
    let depth : Int := if frame.format = K.AV_PIX_FMT_YUV420P10LE then 2 else 1
    let ls := E.av_image_fill_linesizes delivery frame.width
    let r := J.initForYuvFrame { data := jOutputBuffer.data, timeUs := frame.pts }
      frame.width frame.height (ls.getD 0 0) (ls.getD 1 0) depth
    outputFormat K frame = delivery ∧ bitDepth K frame = depth ∧
    ∃ rest, (putFrameToOutputBuffer K E J w jContext frame jOutputBuffer).2.1.trace =
      w.trace ++ Event.setTimeUs frame.pts ::
        Event.initForYuvFrame frame.width frame.height (ls.getD 0 0) (ls.getD 1 0)
          depth r.exceptionPending r.ret :: rest := by
  intro delivery depth ls r
  have hof : outputFormat K frame = delivery := outputFormat_eq K frame
  have hbd : bitDepth K frame = depth := bitDepth_eq K hK frame
  refine ⟨hof, hbd, ?_⟩
  obtain ⟨rest, hrest⟩ :=
    putFrameToOutputBuffer_trace_head K E J w jContext frame jOutputBuffer
  refine ⟨rest, ?_⟩
  rw [hrest]
  unfold initEvent callInit
  simp only [hof, hbd]

/-- C5, at a concrete input: a YUV444P10LE picture (format 70 of the sample
header values) is delivered as is, with bit depth 1. -/
theorem putFrameToOutputBuffer_delivery_witness :
    sampleConsts.Valid ∧
    outputFormat sampleConsts
      { pts := 0, format := 70, width := 2, height := 2, data := [], linesize := [] }
      = 70 ∧
    bitDepth sampleConsts
      { pts := 0, format := 70, width := 2, height := 2, data := [], linesize := [] }
      = 1 :=
  ⟨by decide,
    (putFrameToOutputBuffer_delivery sampleConsts (by decide) scriptedEngine
      allocatingJava (scriptedWorld []) 0
      { pts := 0, format := 70, width := 2, height := 2, data := [], linesize := [] }
      emptyBuffer).1,
    (putFrameToOutputBuffer_delivery sampleConsts (by decide) scriptedEngine
      allocatingJava (scriptedWorld []) 0
      { pts := 0, format := 70, width := 2, height := 2, data := [], linesize := [] }
      emptyBuffer).2.1⟩

/-! ## C6: a failed resize -/

/-- C6: when the `initForYuvFrame` call, made on the buffer whose `timeUs` was
just set to `frame->pts`, throws or returns false, `putFrameToOutputBuffer`
returns `OUTPUT_BUFFER_ALLOCATE_FAILED` (5); the buffer is exactly what that
call left; no codec context changes (no conversion context is stored); the
statics are untouched; and the only outgoing calls are the timestamp write
followed by `initForYuvFrame` (no write of picture data, no request for a
conversion context). -/
theorem putFrameToOutputBuffer_allocate_failed (K : AvConsts) (E : Engine σ)
    (J : JavaRef) (w : World σ) (jContext : Nat) (frame : AVFrame)
    (jOutputBuffer : FrameBuffer) :
    let ls := E.av_image_fill_linesizes (outputFormat K frame) frame.width
    let r := J.initForYuvFrame { data := jOutputBuffer.data, timeUs := frame.pts }
      frame.width frame.height (ls.getD 0 0) (ls.getD 1 0) (bitDepth K frame)
    let out := putFrameToOutputBuffer K E J w jContext frame jOutputBuffer
    r.exceptionPending = true ∨ r.ret = false →
    out.1 = OUTPUT_BUFFER_ALLOCATE_FAILED ∧
    out.2.2 = r.buffer ∧
    out.2.1.contexts = w.contexts ∧
    out.2.1.lastFFmpegErrorCode = w.lastFFmpegErrorCode ∧
    out.2.1.holdFrame = w.holdFrame ∧
    out.2.1.trace = w.trace ++
      [Event.setTimeUs frame.pts,
       Event.initForYuvFrame frame.width frame.height (ls.getD 0 0) (ls.getD 1 0)
        (bitDepth K frame) r.exceptionPending r.ret] := by
  intro ls r out h
  have hout : out = _ :=
    putFrameToOutputBuffer_of_failed K E J w jContext frame jOutputBuffer h
  rw [hout]
  exact ⟨rfl, rfl, rfl, rfl, rfl, rfl⟩

/-- C6, at a concrete input: a Java side that returns false makes the output
stage return 5; the buffer carries the picture's timestamp 40000 and still no
data; the conversion slot of every context is as before. -/
theorem putFrameToOutputBuffer_allocate_failed_witness :
    (refusingJava.initForYuvFrame { data := [], timeUs := 40000 } 2 2 2 1 1).ret
      = false ∧
    (putFrameToOutputBuffer sampleConsts scriptedEngine refusingJava
      (scriptedWorld []) 0 yuvFrame emptyBuffer).1 = OUTPUT_BUFFER_ALLOCATE_FAILED ∧
    (putFrameToOutputBuffer sampleConsts scriptedEngine refusingJava
      (scriptedWorld []) 0 yuvFrame emptyBuffer).2.2 = { data := [], timeUs := 40000 } ∧
    (putFrameToOutputBuffer sampleConsts scriptedEngine refusingJava
      (scriptedWorld []) 0 yuvFrame emptyBuffer).2.1.contexts
      = (scriptedWorld []).contexts :=
  have h := putFrameToOutputBuffer_allocate_failed sampleConsts scriptedEngine
    refusingJava (scriptedWorld []) 0 yuvFrame emptyBuffer (Or.inr rfl)
  ⟨rfl, h.1, h.2.1, h.2.2.1⟩

/-! ## C7: a backing store that is too small -/

/-- C7 as stated fails: for a 2x2 YUV420P picture, whose layout takes 6 bytes,
and a Java side that reports success but leaves a backing store of 0 bytes,
`putFrameToOutputBuffer` returns `NO_ERROR` and still issues
`av_image_copy_to_buffer` with a destination size of 6 on the 0-byte store;
six picture bytes are written. -/
theorem putFrameToOutputBuffer_short_buffer_counterexample :
    (shortJava.initForYuvFrame { data := [], timeUs := 40000 } 2 2 2 1 1)
      = { exceptionPending := false, ret := true,
          buffer := { data := [], timeUs := 40000 } } ∧
    scriptedEngine.av_image_get_buffer_size 0 2 2 1 = 6 ∧
    (putFrameToOutputBuffer sampleConsts scriptedEngine shortJava
      (scriptedWorld []) 0 yuvFrame emptyBuffer).1 = NO_ERROR ∧
    (putFrameToOutputBuffer sampleConsts scriptedEngine shortJava
      (scriptedWorld []) 0 yuvFrame emptyBuffer).2.1.trace =
      [Event.setTimeUs 40000, Event.initForYuvFrame 2 2 2 1 1 false true,
       Event.av_image_copy_to_buffer 0 6 [[1, 2, 3, 4], [5], [6]] [2, 1, 1] 0 2 2 1] ∧
    (putFrameToOutputBuffer sampleConsts scriptedEngine shortJava
      (scriptedWorld []) 0 yuvFrame emptyBuffer).2.2.data = [1, 2, 3, 4, 5, 6] := by
  decide

/-- C7, amended: `putFrameToOutputBuffer` does not look at the size of the
backing store.  Whenever `initForYuvFrame` returns true without an exception
it returns `NO_ERROR` and its last outgoing call is a write into the store
left by that call, whatever its length: on the direct path
`av_image_copy_to_buffer` with the destination size
`av_image_get_buffer_size(format, width, height, 1)`, on the fallback path
`sws_scale`; the buffer's data afterwards is what that writer produced. -/
theorem putFrameToOutputBuffer_writes_unchecked (K : AvConsts) (E : Engine σ)
    (J : JavaRef) (w : World σ) (jContext : Nat) (frame : AVFrame)
    (jOutputBuffer : FrameBuffer) :
    let ls := E.av_image_fill_linesizes (outputFormat K frame) frame.width
    let r := J.initForYuvFrame { data := jOutputBuffer.data, timeUs := frame.pts }
      frame.width frame.height (ls.getD 0 0) (ls.getD 1 0) (bitDepth K frame)
    let out := putFrameToOutputBuffer K E J w jContext frame jOutputBuffer
    let outputSize := E.av_image_get_buffer_size frame.format frame.width frame.height 1
    let dst_data := E.av_image_fill_pointers (outputFormat K frame) frame.height ls
    r.exceptionPending = false → r.ret = true →
    out.1 = NO_ERROR ∧
    (isFormatSupported K frame = true →
      out.2.1.trace.getLast? = some (Event.av_image_copy_to_buffer r.buffer.data.length
        outputSize frame.data frame.linesize frame.format frame.width frame.height 1) ∧
      out.2.2.data = E.av_image_copy_to_buffer r.buffer.data outputSize frame.data
        frame.linesize frame.format frame.width frame.height 1) ∧
    (isFormatSupported K frame = false →
      out.2.1.trace.getLast? = some (Event.sws_scale jContext
        (slotAfter K E w jContext frame) frame.data frame.linesize 0 frame.width
        r.buffer.data.length dst_data ls) ∧
      out.2.2.data = E.sws_scale (slotAfter K E w jContext frame) frame.data
        frame.linesize 0 frame.width r.buffer.data dst_data ls) := by
  intro ls r out outputSize dst_data hex hret
  have hr : r = callInit K E J frame jOutputBuffer := rfl
  have hok : ¬ ((callInit K E J frame jOutputBuffer).exceptionPending = true ∨
      (callInit K E J frame jOutputBuffer).ret = false) := by
    rw [← hr, hex, hret]; simp
  refine ⟨?_, ?_, ?_⟩
  · by_cases hs : isFormatSupported K frame = true
    · have hout : out = _ :=
        putFrameToOutputBuffer_of_supported K E J w jContext frame jOutputBuffer hok hs
      rw [hout]
    · have hs2 : isFormatSupported K frame = false := by simpa using hs
      have hout : out = _ :=
        putFrameToOutputBuffer_of_unsupported K E J w jContext frame jOutputBuffer
          hok hs2
      rw [hout]
  · intro hs
    have hout : out = _ :=
      putFrameToOutputBuffer_of_supported K E J w jContext frame jOutputBuffer hok hs
    rw [hout]
    exact ⟨List.getLast?_concat _, rfl⟩
  · intro hs
    have hout : out = _ :=
      putFrameToOutputBuffer_of_unsupported K E J w jContext frame jOutputBuffer hok hs
    rw [hout]
    exact ⟨List.getLast?_concat _, rfl⟩

/-- C7, amended, at a concrete input: a Java side that allocates the requested
layout and a 2x2 YUV420P picture; the call returns `NO_ERROR` and the six
picture bytes are in the buffer. -/
theorem putFrameToOutputBuffer_writes_unchecked_witness :
    (allocatingJava.initForYuvFrame { data := [], timeUs := 40000 }
      2 2 2 1 1).exceptionPending = false ∧
    (allocatingJava.initForYuvFrame { data := [], timeUs := 40000 } 2 2 2 1 1).ret
      = true ∧
    (putFrameToOutputBuffer sampleConsts scriptedEngine allocatingJava
      (scriptedWorld []) 0 yuvFrame emptyBuffer).1 = NO_ERROR ∧
    (putFrameToOutputBuffer sampleConsts scriptedEngine allocatingJava
      (scriptedWorld []) 0 yuvFrame emptyBuffer).2.2.data = [1, 2, 3, 4, 5, 6] :=
  have h := putFrameToOutputBuffer_writes_unchecked sampleConsts scriptedEngine
    allocatingJava (scriptedWorld []) 0 yuvFrame emptyBuffer rfl rfl
  ⟨rfl, rfl, h.1, (h.2.1 (by decide)).2⟩

/-! ## C10: the source slice handed to `sws_scale` -/

/-- C10 evaluated at a 4x2 RGB24 picture (outside the whitelist): the
`sws_scale` call is issued with source slice start 0 and slice height 4, the
picture's width, while the picture's height is 2.  The destination planes and
strides are those of YUV420P at width 4. -/
theorem putFrameToOutputBuffer_slice_height_4x2 :
    rgbFrame.width = 4 ∧ rgbFrame.height = 2 ∧
    isFormatSupported sampleConsts rgbFrame = false ∧
    (putFrameToOutputBuffer sampleConsts scriptedEngine allocatingJava
      (scriptedWorld []) 0 rgbFrame emptyBuffer).2.1.trace.getLast? =
      some (Event.sws_scale 0
        (some { srcW := 4, srcH := 2, srcFormat := 2, dstW := 4, dstH := 2,
                dstFormat := 0, flags := 4 })
        rgbFrame.data rgbFrame.linesize 0 4 12 [0, 8, 10, 0] [4, 2, 2, 0]) := by
  decide

/-! ## Effects of whole calls on the conversion slot and the status cache -/

theorem lastStatus_append (init : Int) (a b : List Event) :
    lastStatus init (a ++ b) = lastStatus (lastStatus init a) b := by
  induction a generalizing init with
  | nil => rfl
  | cons ev rest ih =>
    cases ev <;> (rw [List.cons_append]; simp only [lastStatus]; exact ih _)

theorem countP_isCreated_le (jContext : Nat) (evs : List Event) :
    evs.countP (Event.isCreated jContext) ≤ evs.countP (Event.isCreateCall jContext) := by
  apply List.countP_mono_left
  intro ev _ h
  cases ev with
  | sws_getCachedContext j a b c d e f g result =>
    cases result with
    | none => simp [Event.isCreated] at h
    | some ctx => simpa [Event.isCreated, Event.isCreateCall] using h
  | _ => simp [Event.isCreated] at h

theorem SlotEffect.refl (jContext : Nat) (w : World σ) : SlotEffect jContext w w [] :=
  ⟨by simp, fun c h => ⟨h, rfl⟩, by simp⟩

theorem SlotEffect.trans {jContext : Nat} {w w2 w3 : World σ} {e1 e2 : List Event}
    (h1 : SlotEffect jContext w w2 e1) (h2 : SlotEffect jContext w2 w3 e2) :
    SlotEffect jContext w w3 (e1 ++ e2) := by
  refine ⟨?_, ?_, ?_⟩
  · rw [h2.trace_eq, h1.trace_eq, List.append_assoc]
  · intro c hc
    obtain ⟨hk1, hn1⟩ := h1.kept c hc
    obtain ⟨hk2, hn2⟩ := h2.kept c hk1
    exact ⟨hk2, by rw [List.countP_append, hn1, hn2]⟩
  · have b1 := h1.bound
    have b2 := h2.bound
    rw [List.countP_append]
    omega

/-- A step that leaves the slot of `jContext` as it was and requests no
context. -/
theorem SlotEffect.of_same {jContext : Nat} {w w2 : World σ} {evs : List Event}
    (ht : w2.trace = w.trace ++ evs)
    (hs : (w2.contexts jContext).opaqueSlot = (w.contexts jContext).opaqueSlot)
    (hn : evs.countP (Event.isCreateCall jContext) = 0) :
    SlotEffect jContext w w2 evs := by
  refine ⟨ht, fun c hc => ⟨hs.trans hc, hn⟩, ?_⟩
  have hle := countP_isCreated_le jContext evs
  rw [hs]
  omega

theorem update_slot_same (f : Nat → AVCodecContext σ) (j jContext : Nat) (eng : σ) :
    ((Function.update f j { engine := eng, opaqueSlot := (f j).opaqueSlot })
      jContext).opaqueSlot = (f jContext).opaqueSlot := by
  by_cases h : jContext = j
  · subst h; simp
  · simp [Function.update_noteq h]

theorem decodePacket_slotEffect (K : AvConsts) (E : Engine σ) (w : World σ)
    (j jContext : Nat) (packet : Option AVPacket) :
    SlotEffect jContext w (decodePacket K E w j packet).2
      [Event.send_packet j packet
        (E.avcodec_send_packet (w.contexts j).engine packet).1] :=
  SlotEffect.of_same rfl (update_slot_same w.contexts j jContext _) rfl

theorem decodePacket_last (K : AvConsts) (E : Engine σ) (w : World σ)
    (j : Nat) (packet : Option AVPacket) :
    (decodePacket K E w j packet).2.lastFFmpegErrorCode =
      (E.avcodec_send_packet (w.contexts j).engine packet).1 := rfl

theorem ffmpegDecode_effect (K : AvConsts) (E : Engine σ) (w : World σ)
    (j jContext : Nat) (encoded : List Nat) (len timeUs : Int)
    (isDecodeOnly isEndOfStream isKeyFrame : Bool) :
    ∃ evs, SlotEffect jContext w
        (ffmpegDecode K E w j encoded len timeUs isDecodeOnly isEndOfStream
          isKeyFrame).2 evs ∧
      (ffmpegDecode K E w j encoded len timeUs isDecodeOnly isEndOfStream
          isKeyFrame).2.lastFFmpegErrorCode = lastStatus w.lastFFmpegErrorCode evs := by
  have hfirst : ∃ e1, SlotEffect jContext w
      (submitData K E w j encoded len timeUs isDecodeOnly isKeyFrame).2 e1 ∧
      (submitData K E w j encoded len timeUs isDecodeOnly isKeyFrame).2.lastFFmpegErrorCode
        = lastStatus w.lastFFmpegErrorCode e1 := by
    unfold submitData
    by_cases hl : 0 < len
    · rw [if_pos hl]
      exact ⟨_, decodePacket_slotEffect K E w j jContext _, rfl⟩
    · rw [if_neg hl]
      exact ⟨[], SlotEffect.refl jContext w, rfl⟩
  obtain ⟨e1, hs1, hl1⟩ := hfirst
  unfold ffmpegDecode
  by_cases hc : (submitData K E w j encoded len timeUs isDecodeOnly isKeyFrame).1
      = NO_ERROR ∧ isEndOfStream = true
  · simp only [if_pos hc]
    have hs2 := decodePacket_slotEffect K E
      (submitData K E w j encoded len timeUs isDecodeOnly isKeyFrame).2 j jContext none
    have hsnd : (if (decodePacket K E
          (submitData K E w j encoded len timeUs isDecodeOnly isKeyFrame).2 j none).1
            = DECODE_AGAIN then
          (NO_ERROR, (decodePacket K E
            (submitData K E w j encoded len timeUs isDecodeOnly isKeyFrame).2 j none).2)
        else decodePacket K E
          (submitData K E w j encoded len timeUs isDecodeOnly isKeyFrame).2 j none).2
        = (decodePacket K E
          (submitData K E w j encoded len timeUs isDecodeOnly isKeyFrame).2 j none).2 := by
      split_ifs <;> rfl
    rw [hsnd]
    exact ⟨_, hs1.trans hs2, by rw [lastStatus_append]; rfl⟩
  · simp only [if_neg hc]
    exact ⟨e1, hs1, hl1⟩

theorem ffmpegFlushBuffers_effect (E : Engine σ) (w : World σ) (j jContext : Nat) :
    SlotEffect jContext w (ffmpegFlushBuffers E w j) [Event.flush_buffers j] ∧
      (ffmpegFlushBuffers E w j).lastFFmpegErrorCode =
        lastStatus w.lastFFmpegErrorCode [Event.flush_buffers j] :=
  ⟨SlotEffect.of_same rfl (update_slot_same w.contexts j jContext _) rfl, rfl⟩

theorem receiveStep_slotEffect (E : Engine σ) (w : World σ) (j jContext : Nat) :
    SlotEffect jContext w (receiveStep E w j).2.1
      [Event.receive_frame j (receiveStep E w j).1] :=
  SlotEffect.of_same rfl (update_slot_same w.contexts j jContext _) rfl

theorem initEvent_not_create (K : AvConsts) (E : Engine σ) (J : JavaRef)
    (frame : AVFrame) (jOutputBuffer : FrameBuffer) (jContext : Nat) :
    Event.isCreateCall jContext (initEvent K E J frame jOutputBuffer) = false := rfl

theorem initEvent_lastStatus (K : AvConsts) (E : Engine σ) (J : JavaRef)
    (frame : AVFrame) (jOutputBuffer : FrameBuffer) (x : Int) (rest : List Event) :
    lastStatus x (initEvent K E J frame jOutputBuffer :: rest) = lastStatus x rest := rfl

theorem createEvents_lastStatus (K : AvConsts) (E : Engine σ) (w : World σ)
    (j : Nat) (frame : AVFrame) (x : Int) (rest : List Event) :
    lastStatus x (createEvents K E w j frame ++ rest) = lastStatus x rest := by
  unfold createEvents
  split_ifs <;> rfl

theorem putFrameToOutputBuffer_effect (K : AvConsts) (E : Engine σ) (J : JavaRef)
    (w : World σ) (j jContext : Nat) (frame : AVFrame) (jOutputBuffer : FrameBuffer) :
    ∃ evs, SlotEffect jContext w
        (putFrameToOutputBuffer K E J w j frame jOutputBuffer).2.1 evs ∧
      (∀ x, lastStatus x evs = x) := by
  by_cases h : (callInit K E J frame jOutputBuffer).exceptionPending = true ∨
      (callInit K E J frame jOutputBuffer).ret = false
  · rw [putFrameToOutputBuffer_of_failed K E J w j frame _ h]
    exact ⟨_, SlotEffect.of_same rfl rfl rfl, fun _ => rfl⟩
  · by_cases hs : isFormatSupported K frame = true
    · rw [putFrameToOutputBuffer_of_supported K E J w j frame _ h hs]
      refine ⟨[Event.setTimeUs frame.pts, initEvent K E J frame jOutputBuffer] ++
        [Event.av_image_copy_to_buffer
          (callInit K E J frame jOutputBuffer).buffer.data.length
          (E.av_image_get_buffer_size frame.format frame.width frame.height 1)
          frame.data frame.linesize frame.format frame.width frame.height 1],
        SlotEffect.of_same (by simp) rfl rfl, fun _ => rfl⟩
    · have hs2 : isFormatSupported K frame = false := by simpa using hs
      rw [putFrameToOutputBuffer_of_unsupported K E J w j frame _ h hs2]
      refine ⟨[Event.setTimeUs frame.pts, initEvent K E J frame jOutputBuffer] ++
        createEvents K E w j frame ++
        [scaleEvent K E J w j frame jOutputBuffer], ?_, ?_⟩
      · by_cases hj : jContext = j
        · subst hj
          cases hslot : (w.contexts jContext).opaqueSlot with
          | some c =>
            have hsa : slotAfter K E w jContext frame = some c := by
              simp [slotAfter, hslot]
            have hce : createEvents K E w jContext frame = [] := by
              simp [createEvents, hslot]
            refine SlotEffect.of_same (by simp) ?_ ?_
            · simp [hsa, hslot]
            · rw [hce]; rfl
          | none =>
            have hsa : slotAfter K E w jContext frame =
                E.sws_getCachedContext frame.width frame.height frame.format
                  frame.width frame.height (outputFormat K frame) K.SWS_BICUBIC := by
              simp [slotAfter, hslot]
            have hce : createEvents K E w jContext frame =
                [Event.sws_getCachedContext jContext frame.width frame.height
                  frame.format frame.width frame.height (outputFormat K frame)
                  K.SWS_BICUBIC
                  (E.sws_getCachedContext frame.width frame.height frame.format
                    frame.width frame.height (outputFormat K frame) K.SWS_BICUBIC)] := by
              simp [createEvents, hslot]
            refine ⟨by simp, fun c hc => absurd (hslot.symm.trans hc) (by simp), ?_⟩
            rw [hce, hslot]
            simp only [Function.update_same, hsa]
            cases E.sws_getCachedContext frame.width frame.height frame.format
                frame.width frame.height (outputFormat K frame) K.SWS_BICUBIC with
            | none => simp [List.countP_cons, Event.isCreated, initEvent, scaleEvent, vacancy]
            | some c =>
              simp [List.countP_cons, Event.isCreated, initEvent, scaleEvent, vacancy]
        · refine SlotEffect.of_same (by simp) ?_ ?_
          · simp [Function.update_noteq hj]
          · have hj2 : ¬ j = jContext := fun h2 => hj h2.symm
            unfold createEvents
            split_ifs <;>
              simp [List.countP_cons, Event.isCreateCall, initEvent, scaleEvent, hj2]
      · intro x
        rw [List.append_assoc]
        show lastStatus x (createEvents K E w j frame ++
          [scaleEvent K E J w j frame jOutputBuffer]) = x
        rw [createEvents_lastStatus]
        rfl

theorem ffmpegGetFrame_effect (K : AvConsts) (E : Engine σ) (J : JavaRef)
    (w : World σ) (j jContext : Nat) (jOutputBuffer : FrameBuffer) :
    ∃ evs, SlotEffect jContext w (ffmpegGetFrame K E J w j jOutputBuffer).2.1 evs ∧
      (ffmpegGetFrame K E J w j jOutputBuffer).2.1.lastFFmpegErrorCode =
        lastStatus w.lastFFmpegErrorCode evs ∧
      (ffmpegGetFrame K E J w j jOutputBuffer).2.1.lastFFmpegErrorCode =
        (receiveStep E w j).1 := by
  have hrec := receiveStep_slotEffect E w j jContext
  by_cases h0 : (receiveStep E w j).1 = 0
  · rw [ffmpegGetFrame_of_zero K E J w j jOutputBuffer h0]
    obtain ⟨pevs, hput, hquiet⟩ := putFrameToOutputBuffer_effect K E J
      (receiveStep E w j).2.1 j jContext (receiveStep E w j).2.2 jOutputBuffer
    have hall := hrec.trans hput
    refine ⟨_, ⟨hall.trace_eq, hall.kept, hall.bound⟩, ?_, rfl⟩
    show (receiveStep E w j).1 = _
    rw [List.singleton_append]
    show _ = lastStatus (receiveStep E w j).1 pevs
    rw [hquiet]
  · rw [ffmpegGetFrame_of_ne_zero K E J w j jOutputBuffer h0]
    exact ⟨_, ⟨hrec.trace_eq, hrec.kept, hrec.bound⟩, rfl, rfl⟩

theorem step_effect (K : AvConsts) (E : Engine σ) (J : JavaRef) (w : World σ)
    (op : Op) (jContext : Nat) :
    ∃ evs, SlotEffect jContext w (step K E J w op) evs ∧
      (step K E J w op).lastFFmpegErrorCode = lastStatus w.lastFFmpegErrorCode evs := by
  cases op with
  | decode j encoded len timeUs isDecodeOnly isEndOfStream isKeyFrame =>
    exact ffmpegDecode_effect K E w j jContext encoded len timeUs isDecodeOnly
      isEndOfStream isKeyFrame
  | getFrame j jOutputBuffer =>
    obtain ⟨evs, h1, h2, -⟩ := ffmpegGetFrame_effect K E J w j jContext jOutputBuffer
    exact ⟨evs, h1, h2⟩
  | flush j =>
    exact ⟨_, (ffmpegFlushBuffers_effect E w j jContext).1,
      (ffmpegFlushBuffers_effect E w j jContext).2⟩

theorem run_effect (K : AvConsts) (E : Engine σ) (J : JavaRef) (ops : List Op)
    (w : World σ) (jContext : Nat) :
    ∃ evs, SlotEffect jContext w (run K E J w ops) evs ∧
      (run K E J w ops).lastFFmpegErrorCode = lastStatus w.lastFFmpegErrorCode evs := by
  induction ops generalizing w with
  | nil => exact ⟨[], SlotEffect.refl jContext w, rfl⟩
  | cons op rest ih =>
    obtain ⟨e1, hs1, hl1⟩ := step_effect K E J w op jContext
    obtain ⟨e2, hs2, hl2⟩ := ih (step K E J w op)
    refine ⟨e1 ++ e2, hs1.trans hs2, ?_⟩
    rw [lastStatus_append, ← hl1]
    exact hl2

/-! ## C8: the cached last error code -/

/-- C8 as stated fails: `lastFFmpegErrorCode` is one static shared by all
contexts.  A decode on context 0 whose submission the engine answers with 0,
followed by a get-frame on context 1 whose receive call the engine answers
with `AVERROR(EAGAIN)` (-11), leaves `ffmpegGetErrorCode` for context 0 at
-11, not at the status 0 of the most recent call on context 0. -/
theorem ffmpegGetErrorCode_shared_counterexample :
    (run sampleConsts scriptedEngine allocatingJava twoSessionWorld
      [Op.decode 0 [0] 1 0 false false true, Op.getFrame 1 emptyBuffer]).trace =
      [Event.send_packet 0 (some (makePacket sampleConsts [0] 1 0 false true)) 0,
       Event.receive_frame 1 (-11)] ∧
    ffmpegGetErrorCode
      (run sampleConsts scriptedEngine allocatingJava twoSessionWorld
        [Op.decode 0 [0] 1 0 false false true, Op.getFrame 1 emptyBuffer]) 0 = -11 := by
  decide

/-- C8, amended: after any sequence of decode, get-frame and flush calls on
any contexts, `ffmpegGetErrorCode` (for whatever context it is asked) is the
raw status of the last engine call, send-packet or receive-frame, that the
sequence made on any context, and the previous value if it made none.  In
particular: right after a get-frame it is the status of that call's
receive-frame (also when the output stage then fails); right after
`decodePacket` it is the status of that submission; a decode with `len = 0`
and no end-of-stream flag leaves it unchanged. -/
theorem ffmpegGetErrorCode_last_engine_call (K : AvConsts) (E : Engine σ)
    (J : JavaRef) (w : World σ) (ops : List Op) (jContext : Nat) :
    (∃ evs, (run K E J w ops).trace = w.trace ++ evs ∧
      ffmpegGetErrorCode (run K E J w ops) jContext =
        lastStatus w.lastFFmpegErrorCode evs) ∧
    (∀ j jOutputBuffer,
      ffmpegGetErrorCode (ffmpegGetFrame K E J w j jOutputBuffer).2.1 jContext =
        (receiveStep E w j).1) ∧
    (∀ j packet,
      ffmpegGetErrorCode (decodePacket K E w j packet).2 jContext =
        (E.avcodec_send_packet (w.contexts j).engine packet).1) ∧
    (∀ j encoded timeUs isDecodeOnly isKeyFrame,
      ffmpegGetErrorCode
        (ffmpegDecode K E w j encoded 0 timeUs isDecodeOnly false isKeyFrame).2 jContext
        = w.lastFFmpegErrorCode) := by
  refine ⟨?_, ?_, ?_, ?_⟩
  · obtain ⟨evs, hs, hl⟩ := run_effect K E J ops w jContext
    exact ⟨evs, hs.trace_eq, hl⟩
  · intro j jOutputBuffer
    obtain ⟨_, -, -, h3⟩ := ffmpegGetFrame_effect K E J w j jContext jOutputBuffer
    exact h3
  · intro j packet
    rfl
  · intro j encoded timeUs isDecodeOnly isKeyFrame
    simp [ffmpegDecode, submitData, ffmpegGetErrorCode]

/-! ## C9: the conversion context is built at most once -/

/-- C9: over any sequence of decode, get-frame and flush calls on any
contexts, at most one conversion context is built for a given context; if its
slot already holds a context, that context is still there afterwards and no
new one is even requested, whatever pictures arrive.  Within one run of the
output stage a context is requested at most once, and it is requested exactly
when the slot is empty, the picture's format is outside the whitelist and
`initForYuvFrame` succeeded. -/
theorem conversion_context_built_once (K : AvConsts) (E : Engine σ) (J : JavaRef)
    (w : World σ) (ops : List Op) (jContext : Nat) :
    (∃ evs, (run K E J w ops).trace = w.trace ++ evs ∧
      evs.countP (Event.isCreated jContext) ≤ 1 ∧
      (∀ c, (w.contexts jContext).opaqueSlot = some c →
        ((run K E J w ops).contexts jContext).opaqueSlot = some c ∧
        evs.countP (Event.isCreateCall jContext) = 0)) ∧
    (∀ frame jOutputBuffer, ∃ pevs,
      (putFrameToOutputBuffer K E J w jContext frame jOutputBuffer).2.1.trace
        = w.trace ++ pevs ∧
      pevs.countP (Event.isCreateCall jContext) ≤ 1 ∧
      (pevs.countP (Event.isCreateCall jContext) = 1 ↔
        (w.contexts jContext).opaqueSlot = none ∧
        isFormatSupported K frame = false ∧
        ¬ ((callInit K E J frame jOutputBuffer).exceptionPending = true ∨
          (callInit K E J frame jOutputBuffer).ret = false))) := by
  refine ⟨?_, ?_⟩
  · obtain ⟨evs, hs, -⟩ := run_effect K E J ops w jContext
    refine ⟨evs, hs.trace_eq, ?_, hs.kept⟩
    have hb := hs.bound
    have hv : vacancy (w.contexts jContext).opaqueSlot ≤ 1 := by
      unfold vacancy; split_ifs <;> simp
    omega
  · intro frame jOutputBuffer
    by_cases h : (callInit K E J frame jOutputBuffer).exceptionPending = true ∨
        (callInit K E J frame jOutputBuffer).ret = false
    · rw [putFrameToOutputBuffer_of_failed K E J w jContext frame _ h]
      refine ⟨_, rfl, by simp [List.countP_cons, Event.isCreateCall, initEvent], ?_⟩
      simp [List.countP_cons, Event.isCreateCall, initEvent, h]
    · by_cases hs : isFormatSupported K frame = true
      · rw [putFrameToOutputBuffer_of_supported K E J w jContext frame _ h hs]
        refine ⟨_, by simp only [List.append_assoc]; rfl,
          by simp [List.countP_cons, Event.isCreateCall, initEvent], ?_⟩
        simp [List.countP_cons, Event.isCreateCall, initEvent, hs]
      · have hs2 : isFormatSupported K frame = false := by simpa using hs
        rw [putFrameToOutputBuffer_of_unsupported K E J w jContext frame _ h hs2]
        refine ⟨[Event.setTimeUs frame.pts, initEvent K E J frame jOutputBuffer] ++
          createEvents K E w jContext frame ++
          [scaleEvent K E J w jContext frame jOutputBuffer],
          by simp only [List.append_assoc], ?_, ?_⟩
        · unfold createEvents
          split_ifs <;>
            simp [List.countP_cons, Event.isCreateCall, initEvent, scaleEvent]
        · unfold createEvents
          cases hslot : (w.contexts jContext).opaqueSlot with
          | none =>
            simp [List.countP_cons, Event.isCreateCall, initEvent, scaleEvent, hs2, h]
          | some c =>
            simp [List.countP_cons, Event.isCreateCall, initEvent, scaleEvent]

end MQPlayer
